import Mathlib

/-!
Verification development for the P2Pool manager module
(src/src/p2pool/P2PoolManager.cpp).

The module's operations are shallowly embedded as executable Lean
functions over explicit state:

* `start()` (lines 154-215) becomes `assembleArgs` (the argument
  assembly of lines 157-191) plus `startStep` (argument assembly,
  stats-directory recreation, handle reset, detached launch); the
  outcome of `QProcess::startDetached` is an explicit `launchOk` input.
* `exit()` (lines 217-231) becomes `exitStep`.
* `getStatus()` (lines 132-152) becomes `getStatus`, with the stats
  file modelled as an `Option String` (none = the path is not a regular
  file).  The `QTextStream >> QByteArray` read of line 145 extracts one
  whitespace-delimited word (`readWord`), and
  `QJsonDocument::fromJson` / `QJsonObject::value("current_hashrate").toInt()`
  are modelled by `parseFlatObj` / `hashrateFromData` on the JSON
  fragment the stats file uses: a flat object with distinct keys,
  escape-free string keys and canonical integer literals.  The model
  is deliberately partial in one direction only: every input outside
  this fragment (leading-zero literals, duplicate keys, string
  escapes, raw control characters, non-integer values, trailing
  garbage) makes the modelled parse FAIL, including inputs Qt would
  accept, so theorems conditioned on a successful modelled parse never
  claim anything about inputs where Qt's parser could disagree; where
  the model succeeds, Qt's parser succeeds with the same fields (the
  truncated word reads at issue here fail in both).
* `download()` (lines 50-122) becomes `downloadModel`; the HTTP layer
  is an oracle `net : host -> requestPath -> Option Response` (none =
  transport failure), SHA-256 is an abstract digest parameter, and the
  post-extraction `isInstalled()` re-check is the Boolean input
  `installedAfter`.  `QUrl` resolution of an absolute https URL is
  modelled by `parseUrl`.
* The interleaving of `start()` and `exit()` on the shared state and
  the single mutex `m_p2poolMutex` (taken at line 196, and nowhere in
  `exit()`) is modelled by the small-step system `Sys` / `sysStep`
  with explicit schedules.
-/

/-- Splitting a character list at every space, keeping empty parts:
the behaviour of `QString::split(" ")` (default `Qt::KeepEmptyParts`)
used at line 160. -/
def splitSpace : List Char → List (List Char)
  | [] => [[]]
  | c :: rest =>
    let r := splitSpace rest
    if c == ' ' then [] :: r
    else
      match r with
      | [] => [[c]]
      | w :: ws => (c :: w) :: ws

/-- The non-empty split tokens of the caller-supplied flags string:
lines 160-164 append exactly the non-empty parts of
`flags.split(" ")` to `arguments`. -/
def tokensOf (flags : String) : List String :=
  ((splitSpace flags.data).map String.mk).filter (fun t => t != "")

/-- The argument list after the `--local-api` default of lines 166-168. -/
def argsAfterLocal (flags : String) : List String :=
  let args0 := tokensOf flags
  if "--local-api" ∈ args0 then args0 else args0 ++ ["--local-api"]

/-- The full argument assembly of `P2PoolManager::start`, lines 157-191:
flags tokens, then `--local-api`, `--data-api <dir>`, `--start-mining
<threads>`, `--mini`, `--wallet <address>`, each guarded exactly as in
the source (`QStringList::contains` on the list built so far). -/
def assembleArgs (p2poolPath flags address chain threads : String) : List String :=
  let args1 := argsAfterLocal flags
  let dirName := p2poolPath ++ "/stats/"
  let args2 := if "--data-api" ∈ args1 then args1 else args1 ++ ["--data-api", dirName]
  let args3 := if "--start-mining" ∈ args2 then args2 else args2 ++ ["--start-mining", threads]
  let args4 := if chain = "mini" then args3 ++ ["--mini"] else args3
  if "--wallet" ∈ args4 then args4 else args4 ++ ["--wallet", address]

/-- Argument assembly as the specification describes it: every
containment check inspects only the literal split tokens of the
caller-supplied flags string (claim C4).  Compare with `assembleArgs`,
which is taken from the source and checks the list built so far. -/
def assembleArgsSpec (p2poolPath flags address chain threads : String) : List String :=
  let toks := tokensOf flags
  let args1 := if "--local-api" ∈ toks then toks else toks ++ ["--local-api"]
  let dirName := p2poolPath ++ "/stats/"
  let args2 := if "--data-api" ∈ toks then args1 else args1 ++ ["--data-api", dirName]
  let args3 := if "--start-mining" ∈ toks then args2 else args2 ++ ["--start-mining", threads]
  let args4 := if chain = "mini" then args3 ++ ["--mini"] else args3
  if "--wallet" ∈ toks then args4 else args4 ++ ["--wallet", address]

/-- The manager state touched by `start()` and `exit()`: the `started`
flag, whether the stats directory exists, a generation counter bumped
each time the stats directory is wiped and recreated (lines 170-177),
and a counter standing for the identity of the `m_p2poold` process
handle (bumped by the `reset(new QProcess())` of line 198). -/
structure MState where
  started : Bool
  statsDirExists : Bool
  statsDirGen : Nat
  handle : Nat
deriving DecidableEq

/-- Notifications `start()` can emit (line 210). -/
inductive PEvent where
  | p2poolStartFailure
deriving DecidableEq

/-- Everything observable about one `start()` call: the returned Bool,
the state after the call, the emitted notifications, the assembled
argument list, and `pre`, the state at the moment `startDetached()`
is invoked (line 206). -/
structure StartResult where
  ret : Bool
  state : MState
  events : List PEvent
  args : List String
  pre : MState
deriving DecidableEq

/-- One `start(flags, address, chain, threads)` call, lines 154-215.
The stats directory is removed and recreated (lines 170-179) exactly
when the argument list built so far lacks `--data-api`; the handle is
reset unconditionally (line 198); `started` is assigned the launch
outcome (line 206); on failure `p2poolStartFailure` is emitted and
false returned (lines 208-212). -/
def startStep (p2poolPath flags address chain threads : String) (launchOk : Bool)
    (s : MState) : StartResult :=
  let args1 := argsAfterLocal flags
  let s1 := if "--data-api" ∈ args1 then s
            else { s with statsDirExists := true, statsDirGen := s.statsDirGen + 1 }
  let args := assembleArgs p2poolPath flags address chain threads
  let s2 := { s1 with handle := s1.handle + 1 }
  let s3 := { s2 with started := launchOk }
  if launchOk then ⟨true, s3, [], args, s2⟩
  else ⟨false, s3, [.p2poolStartFailure], args, s2⟩

/-- One `exit()` call, lines 217-231: when `started`, kill the daemon,
set `started := false` and recursively delete the stats directory;
otherwise do nothing. -/
def exitStep (s : MState) : MState :=
  if s.started then { s with started := false, statsDirExists := false } else s

/-- An event in a sequence of manager calls (claim C2). -/
inductive MEvent where
  | startEv (flags address chain threads : String) (launchOk : Bool)
  | exitEv
deriving DecidableEq

/-- Apply one manager call to the state. -/
def stepEv (p2poolPath : String) (s : MState) : MEvent → MState
  | .startEv f a c t ok => (startStep p2poolPath f a c t ok s).state
  | .exitEv => exitStep s

/-- Run a sequence of manager calls. -/
def runEvents (p2poolPath : String) (s : MState) : List MEvent → MState
  | [] => s
  | e :: rest => runEvents p2poolPath (stepEv p2poolPath s e) rest

/-- The constructor state (lines 233-252): `started = false`, and no
stats directory has been created. -/
def initState : MState :=
  { started := false, statsDirExists := false, statsDirGen := 0, handle := 0 }

/-- A benign manager call: an `exit()`, or a `start()` whose launch
succeeds and whose flags tokens do not contain `--data-api` (the
conditions under which claim C2's invariant survives). -/
def eventOk : MEvent → Prop
  | .startEv flags _ _ _ ok => ok = true ∧ "--data-api" ∉ tokensOf flags
  | .exitEv => True

/-- Whitespace as `QTextStream`'s word extraction delimits it, i.e.
`QChar::isSpace`: tab through carriage return, space, next line
(U+0085), and the Unicode separator categories Zs, Zl, Zp (no-break
space, ogham space mark, the U+2000 range, line and paragraph
separators, narrow and medium spaces, ideographic space); U+180E is
included as well, covering the older Unicode tables some Qt 5
releases ship where it was still a separator. -/
def isQtSpace (c : Char) : Bool :=
  let n := c.toNat
  (0x09 ≤ n && n ≤ 0x0d) || n == 0x20 || n == 0x85 || n == 0xa0 || n == 0x1680 ||
  n == 0x180e || (0x2000 ≤ n && n ≤ 0x200a) || n == 0x2028 || n == 0x2029 ||
  n == 0x202f || n == 0x205f || n == 0x3000

/-- The `statsOut >> data` read of line 145: `QTextStream >> QByteArray`
skips leading whitespace and extracts one word, stopping at the next
whitespace character.  It does NOT read the file's full contents. -/
def readWord (content : String) : String :=
  String.mk ((content.data.dropWhile isQtSpace).takeWhile (fun c => !isQtSpace c))

/-- JSON insignificant whitespace. -/
def skipWs (cs : List Char) : List Char :=
  cs.dropWhile (fun c => c == ' ' || c == '\t' || c == '\n' || c == '\r')

/-- Characters allowed inside a modelled JSON string literal: the
JSON grammar forbids raw control characters below U+0020 and the
parse must stop at the closing quote; a backslash (escape sequence)
makes the modelled parse fail rather than diverge from Qt's
unescaping. -/
def jstrChar (c : Char) : Bool :=
  32 ≤ c.toNat && c != '\"' && c != '\\'

/-- A JSON string literal without escape sequences; escapes and raw
control characters make the modelled parse fail. -/
def parseJStr : List Char → Option (String × List Char)
  | '\"' :: rest =>
    let body := rest.takeWhile jstrChar
    (match rest.dropWhile jstrChar with
     | '\"' :: rest2 => some (String.mk body, rest2)
     | _ => none)
  | _ => none

/-- Value of a non-empty digit list. -/
def natOfDigits (ds : List Char) : Nat :=
  ds.foldl (fun a c => a * 10 + (c.toNat - 48)) 0

/-- A digit run forming a JSON int: per the JSON number grammar a
leading zero is only allowed when the literal is exactly `0`
(`QJsonDocument::fromJson` rejects literals such as `0123`). -/
def parseJDigits (cs : List Char) : Option (Nat × List Char) :=
  let ds := cs.takeWhile Char.isDigit
  if ds.isEmpty then none
  else if ds.head? = some '0' ∧ ds.length ≠ 1 then none
  else some (natOfDigits ds, cs.dropWhile Char.isDigit)

/-- A JSON integer literal, optionally negated. -/
def parseJInt (cs : List Char) : Option (Int × List Char) :=
  match cs with
  | '-' :: rest => (parseJDigits rest).map (fun p => (-(Int.ofNat p.1), p.2))
  | _ => (parseJDigits cs).map (fun p => (Int.ofNat p.1, p.2))

/-- Comma-separated `"key" : int` pairs up to the closing brace. -/
def parsePairs : Nat → List Char → Option (List (String × Int) × List Char)
  | 0, _ => none
  | Nat.succ fuel, cs =>
    match parseJStr (skipWs cs) with
    | none => none
    | some (k, cs1) =>
      match skipWs cs1 with
      | ':' :: cs2 =>
        (match parseJInt (skipWs cs2) with
         | none => none
         | some (n, cs3) =>
           match skipWs cs3 with
           | ',' :: cs4 =>
             (match parsePairs fuel cs4 with
              | some (rest, cs5) => some ((k, n) :: rest, cs5)
              | none => none)
           | '\x7d' :: cs4 => some ([(k, n)], cs4)
           | _ => none)
      | _ => none

/-- Pairwise-distinct keys.  `QJsonObject` resolves duplicate keys by
replacement; the model refuses them instead, so a successful modelled
parse never disagrees with Qt's key resolution. -/
def noDupKeys : List (String × Int) → Bool
  | [] => true
  | (k, _) :: rest => !(rest.any (fun kv => kv.1 == k)) && noDupKeys rest

/-- `QJsonDocument::fromJson` restricted to the stats-file fragment: a
flat JSON object with distinct keys whose values are integer literals,
with no trailing garbage.  `none` models a parse error (null document,
hence the empty `QJsonObject`); inputs outside the fragment are mapped
to `none` even when Qt would accept them, keeping the model partial in
the sound direction. -/
def parseFlatObj (s : String) : Option (List (String × Int)) :=
  match skipWs s.data with
  | '\x7b' :: cs =>
    (match skipWs cs with
     | '\x7d' :: cs2 => if (skipWs cs2).isEmpty then some [] else none
     | _ =>
       match parsePairs (cs.length + 1) cs with
       | some (fields, rest) =>
         if (skipWs rest).isEmpty && noDupKeys fields then some fields else none
       | none => none)
  | _ => none

/-- `QJsonValue::toInt()` with default 0: the value when it is a whole
number representable as qint32, otherwise 0 (also 0 for `Undefined`,
the result of looking up an absent key). -/
def toIntDefault0 : Option Int → Int
  | some n => if -(2 ^ 31) ≤ n ∧ n < 2 ^ 31 then n else 0
  | none => 0

/-- Lines 147-149: parse the read bytes, take the object, extract
`current_hashrate` as an int (0 on parse failure or absent field). -/
def hashrateFromData (data : String) : Int :=
  toIntDefault0 ((parseFlatObj data).bind (List.lookup "current_hashrate"))

/-- `P2PoolManager::getStatus`, lines 132-152.  `statsFile` is the
stats file at `m_p2poolPath + "/stats/local/miner"`: `none` when the
path is not a regular file, otherwise its contents.  When the file is
missing or `started` is false, `(started, 0)` is emitted (lines
135-140); otherwise one word is read from the file and the hashrate
extracted (lines 141-151). -/
def getStatus (started : Bool) (statsFile : Option String) : Bool × Int :=
  match statsFile, started with
  | none, b => (b, 0)
  | some _, false => (false, 0)
  | some content, true => (true, hashrateFromData (readWord content))

/-- Failure kinds `download()` can emit. -/
inductive FailureReason where
  | BinaryNotAvailable
  | ConnectionIssue
  | HashVerificationFailed
  | InstallationFailed
deriving DecidableEq

/-- Download completion events. -/
inductive DlEvent where
  | downloadSuccess
  | downloadFailure (r : FailureReason)
deriving DecidableEq

/-- An HTTP response as `download()` consumes it: status code, header
fields in order (possibly repeated), body. -/
structure Response where
  code : Nat
  fields : List (String × String)
  body : String
deriving DecidableEq

/-- A resolved URL: host, path, query. -/
structure Url where
  host : String
  path : String
  query : String
deriving DecidableEq

/-- `QUrl` resolution of an absolute https URL (the descriptor URLs of
lines 56-70 and GitHub redirect targets): strip the scheme, host up to
the first slash, path up to a question mark, query after it. -/
def parseUrl (s : String) : Url :=
  let cs := if "https://".data.isPrefixOf s.data then s.data.drop 8 else s.data
  let hostCs := cs.takeWhile (fun c => c != '/')
  let afterHost := cs.dropWhile (fun c => c != '/')
  { host := String.mk hostCs,
    path := String.mk (afterHost.takeWhile (fun c => c != '?')),
    query := String.mk ((afterHost.dropWhile (fun c => c != '?')).drop 1) }

/-- Transport-phase outcome: the last `invoke_get` response pointer
(`none` when the last GET failed at the transport level, which is the
source's `success == false`), and the log of issued GETs as
(host, request path) pairs. -/
structure FetchOutcome where
  response : Option Response
  requests : List (String × String)
deriving DecidableEq

/-- Re-target for a `Location` value, lines 86-91: host from the URL,
request path rebuilt as `path + "?" + query`. -/
def redirectTarget (loc : String) : String × String :=
  let u := parseUrl loc
  (u.host, u.path ++ "?" ++ u.query)

/-- The redirect handling of lines 83-93: iterate over ALL header
fields of the 302 response, and for EACH field named `Location`
re-target and issue a further GET, overwriting `success` and the
response pointer each time. -/
def redirectLoop (net : String → String → Option Response) :
    List (String × String) → FetchOutcome → FetchOutcome
  | [], acc => acc
  | (k, v) :: rest, acc =>
    if k == "Location" then
      let tgt := redirectTarget v
      redirectLoop net rest
        { response := net tgt.1 tgt.2, requests := acc.requests ++ [tgt] }
    else redirectLoop net rest acc

/-- The whole transport phase: the first GET (line 78) and, when it
succeeded with status 302, the redirect loop. -/
def fetchResult (url0 : Url) (net : String → String → Option Response) : FetchOutcome :=
  match net url0.host url0.path with
  | none => { response := none, requests := [(url0.host, url0.path)] }
  | some r1 =>
    if r1.code = 302 then
      redirectLoop net r1.fields { response := some r1, requests := [(url0.host, url0.path)] }
    else { response := some r1, requests := [(url0.host, url0.path)] }

/-- Observable effects of one `download()` attempt: emitted events,
files written (name, contents), archives extracted via tar, archive
files removed, GET requests issued. -/
structure DownloadEffects where
  events : List DlEvent
  writes : List (String × String)
  tarRuns : List String
  removes : List String
  requests : List (String × String)
deriving DecidableEq

/-- `P2PoolManager::download`, lines 50-122.  First GET; a 404 fails
with `BinaryNotAvailable` (lines 79-81); a 302 triggers the redirect
loop (lines 82-94); transport failure fails with `ConnectionIssue`
(lines 95-97); then the body digest is compared against the expected
hash (lines 99-105) — a mismatch fails with `HashVerificationFailed`
before anything is written; on a match the archive is written,
extracted and removed, and the `isInstalled()` re-check picks success
or `InstallationFailed` (lines 106-118). -/
def downloadModel (url0 : Url) (fileName validHash : String)
    (net : String → String → Option Response)
    (sha256hex : String → String) (installedAfter : Bool) : DownloadEffects :=
  match net url0.host url0.path with
  | none =>
    { events := [.downloadFailure .ConnectionIssue], writes := [], tarRuns := [],
      removes := [], requests := [(url0.host, url0.path)] }
  | some r1 =>
    if r1.code = 404 then
      { events := [.downloadFailure .BinaryNotAvailable], writes := [], tarRuns := [],
        removes := [], requests := [(url0.host, url0.path)] }
    else
      let fo := fetchResult url0 net
      match fo.response with
      | none =>
        { events := [.downloadFailure .ConnectionIssue], writes := [], tarRuns := [],
          removes := [], requests := fo.requests }
      | some r =>
        if sha256hex r.body ≠ validHash then
          { events := [.downloadFailure .HashVerificationFailed], writes := [], tarRuns := [],
            removes := [], requests := fo.requests }
        else
          { events := [if installedAfter then DlEvent.downloadSuccess
                       else .downloadFailure .InstallationFailed],
            writes := [(fileName, r.body)], tarRuns := [fileName], removes := [fileName],
            requests := fo.requests }

/-- Atomic actions of the concurrent `start()` / `exit()` model (claim
C3).  `start()` with empty flags is the steps: argument assembly plus
stats-directory recreation (lines 157-194, before the lock), lock
acquisition (line 196), handle reset (line 198), launch assigning
`started` (line 206), lock release (return).  `exit()` (lines 217-231)
takes no lock at all; it is modelled as one atomic action, which only
UNDERapproximates the possible interleavings. -/
inductive Act where
  | prepArgsAndDir
  | lockAcquire
  | resetHandle
  | launch (ok : Bool)
  | lockRelease
  | exitBody
deriving DecidableEq

/-- Shared state of the two-thread model. -/
structure CState where
  started : Bool
  statsDir : Bool
  locked : Bool
deriving DecidableEq

/-- An action is enabled unless it needs the (taken) lock. -/
def actEnabled (s : CState) : Act → Bool
  | .lockAcquire => !s.locked
  | _ => true

/-- Effect of one atomic action on the shared state. -/
def actApply (s : CState) : Act → CState
  | .prepArgsAndDir => { s with statsDir := true }
  | .lockAcquire => { s with locked := true }
  | .resetHandle => s
  | .launch ok => { s with started := ok }
  | .lockRelease => { s with locked := false }
  | .exitBody => if s.started then { s with started := false, statsDir := false } else s

/-- The `start()` thread's program (empty flags, launch outcome `ok`). -/
def startThread (ok : Bool) : List Act :=
  [.prepArgsAndDir, .lockAcquire, .resetHandle, .launch ok, .lockRelease]

/-- The `exit()` thread's program. -/
def exitThread : List Act := [.exitBody]

/-- A two-thread configuration: shared state plus the remaining
programs of the start thread (`t1`) and the exit thread (`t2`). -/
structure Sys where
  st : CState
  t1 : List Act
  t2 : List Act
deriving DecidableEq

/-- Scheduler step: run the next action of the chosen thread (`true` =
start thread) when it is enabled; a blocked or finished thread leaves
the configuration unchanged. -/
def sysStep (sys : Sys) : Bool → Sys
  | true =>
    match sys.t1 with
    | [] => sys
    | a :: rest =>
      if actEnabled sys.st a then { sys with st := actApply sys.st a, t1 := rest } else sys
  | false =>
    match sys.t2 with
    | [] => sys
    | a :: rest =>
      if actEnabled sys.st a then { sys with st := actApply sys.st a, t2 := rest } else sys

/-- Run a whole schedule. -/
def runSched (sys : Sys) : List Bool → Sys
  | [] => sys
  | tid :: rest => runSched (sysStep sys tid) rest

/-- Appending two lists that end in distinct elements yields distinct
lists. -/
theorem concat_ne_concat {α} (as bs : List α) (a b : α) (h : a ≠ b) :
    as ++ [a] ≠ bs ++ [b] := by
  intro he
  exact h (List.head_eq_of_cons_eq (List.append_inj' he rfl).2)

/-- String append acts as list append on the underlying characters. -/
theorem data_append (a b : String) : (a ++ b).data = a.data ++ b.data := by
  cases a; cases b; rfl

/-- The stats directory name ends in a slash, so it can never collide
with the token `--start-mining` in a containment check. -/
theorem statsDir_ne_mining (p : String) : p ++ "/stats/" ≠ "--start-mining" := by
  intro h
  have h2 : p.data ++ "/stats/".data = "--start-mining".data := by
    rw [← data_append, h]
  have h4 : "/stats/".data = "/stats".data ++ ['/'] := rfl
  have h5 : "--start-mining".data = "--start-minin".data ++ ['g'] := rfl
  rw [h4, h5, ← List.append_assoc] at h2
  exact concat_ne_concat _ _ _ _ (by decide) h2

/-- The stats directory name ends in a slash, so it can never collide
with the token `--wallet` in a containment check. -/
theorem statsDir_ne_wallet (p : String) : p ++ "/stats/" ≠ "--wallet" := by
  intro h
  have h2 : p.data ++ "/stats/".data = "--wallet".data := by
    rw [← data_append, h]
  have h4 : "/stats/".data = "/stats".data ++ ['/'] := rfl
  have h5 : "--wallet".data = "--walle".data ++ ['t'] := rfl
  rw [h4, h5, ← List.append_assoc] at h2
  exact concat_ne_concat _ _ _ _ (by decide) h2

/-- An empty flags string contributes no tokens. -/
theorem tokensOf_empty : tokensOf "" = [] := rfl

/-- Appending `--local-api` does not affect the `--data-api`
containment check of line 170. -/
theorem mem_argsAfterLocal_dataApi (f : String) :
    ("--data-api" ∈ argsAfterLocal f) ↔ ("--data-api" ∈ tokensOf f) := by
  by_cases h : "--local-api" ∈ tokensOf f <;> simp [argsAfterLocal, h]

/-- After `start()`, the `started` member equals the launch outcome. -/
theorem startStep_state_started (p f a c t : String) (ok : Bool) (s : MState) :
    (startStep p f a c t ok s).state.started = ok := by
  cases ok <;> rfl

/-- After `start()`, the stats directory exists unless recreation was
suppressed by a `--data-api` token. -/
theorem startStep_state_statsDirExists (p f a c t : String) (ok : Bool) (s : MState) :
    (startStep p f a c t ok s).state.statsDirExists =
      if "--data-api" ∈ argsAfterLocal f then s.statsDirExists else true := by
  cases ok <;> simp [startStep, apply_ite MState.statsDirExists]

/-- After `start()`, the stats-directory generation is bumped exactly
when the directory was recreated. -/
theorem startStep_state_statsDirGen (p f a c t : String) (ok : Bool) (s : MState) :
    (startStep p f a c t ok s).state.statsDirGen =
      if "--data-api" ∈ argsAfterLocal f then s.statsDirGen else s.statsDirGen + 1 := by
  cases ok <;> simp [startStep, apply_ite MState.statsDirGen]

/-- `start()` always discards and replaces the stored process handle
(line 198). -/
theorem startStep_state_handle (p f a c t : String) (ok : Bool) (s : MState) :
    (startStep p f a c t ok s).state.handle = s.handle + 1 := by
  cases ok <;> simp [startStep, apply_ite MState.handle]

/-- Stats-directory existence at the moment of launch. -/
theorem startStep_pre_statsDirExists (p f a c t : String) (ok : Bool) (s : MState) :
    (startStep p f a c t ok s).pre.statsDirExists =
      if "--data-api" ∈ argsAfterLocal f then s.statsDirExists else true := by
  cases ok <;> simp [startStep, apply_ite MState.statsDirExists]

/-- Stats-directory generation at the moment of launch. -/
theorem startStep_pre_statsDirGen (p f a c t : String) (ok : Bool) (s : MState) :
    (startStep p f a c t ok s).pre.statsDirGen =
      if "--data-api" ∈ argsAfterLocal f then s.statsDirGen else s.statsDirGen + 1 := by
  cases ok <;> simp [startStep, apply_ite MState.statsDirGen]

/-- The handle is already replaced at the moment of launch. -/
theorem startStep_pre_handle (p f a c t : String) (ok : Bool) (s : MState) :
    (startStep p f a c t ok s).pre.handle = s.handle + 1 := by
  cases ok <;> simp [startStep, apply_ite MState.handle]

/-- The argument list `start()` launches with is `assembleArgs`. -/
theorem startStep_args (p f a c t : String) (ok : Bool) (s : MState) :
    (startStep p f a c t ok s).args = assembleArgs p f a c t := by
  cases ok <;> rfl

/-- Under benign events, one manager step preserves the
stats-directory invariant, hence so does any run. -/
theorem runEvents_inv (path : String) : ∀ (events : List MEvent) (s : MState),
    s.statsDirExists = s.started → (∀ e ∈ events, eventOk e) →
    (runEvents path s events).statsDirExists = (runEvents path s events).started
  | [], s, hinv, _ => hinv
  | e :: rest, s, hinv, hok => by
    have hok2 : ∀ e2 ∈ rest, eventOk e2 := fun e2 he2 => hok e2 (List.mem_cons_of_mem e he2)
    have he : eventOk e := hok e (List.mem_cons_self e rest)
    refine runEvents_inv path rest _ ?_ hok2
    cases e with
    | startEv f a c t ok =>
      obtain ⟨hoktrue, hnd⟩ := he
      subst hoktrue
      have hnd2 : ¬ ("--data-api" ∈ argsAfterLocal f) := by
        rw [mem_argsAfterLocal_dataApi]; exact hnd
      simp [stepEv, startStep_state_started, startStep_state_statsDirExists, hnd2]
    | exitEv =>
      simp only [stepEv, exitStep]
      split <;> simp_all

/-- A redirect loop over fields with no `Location` entry issues no
further GET. -/
theorem redirectLoop_no_loc (net : String → String → Option Response) :
    ∀ (fields : List (String × String)) (acc : FetchOutcome),
      fields.filter (fun kv => kv.1 == "Location") = [] →
      redirectLoop net fields acc = acc
  | [], _, _ => rfl
  | (k, v) :: rest, acc, h => by
    rw [List.filter_cons] at h
    by_cases hk : (k == "Location") = true
    · simp [hk] at h
    · simp only [hk, if_neg, Bool.false_eq_true, not_false_eq_true, if_neg] at h ⊢
      rw [redirectLoop]
      simp only [hk, Bool.false_eq_true, if_false]
      exact redirectLoop_no_loc net rest acc h

/-- A redirect loop over fields with exactly one `Location` entry
issues exactly one further GET, to that entry's target. -/
theorem redirectLoop_single_loc (net : String → String → Option Response) (loc : String) :
    ∀ (fields : List (String × String)) (acc : FetchOutcome),
      fields.filter (fun kv => kv.1 == "Location") = [("Location", loc)] →
      redirectLoop net fields acc =
        { response := net (redirectTarget loc).1 (redirectTarget loc).2,
          requests := acc.requests ++ [redirectTarget loc] }
  | [], _, h => by simp at h
  | (k, v) :: rest, acc, h => by
    rw [List.filter_cons] at h
    by_cases hk : (k == "Location") = true
    · simp only [hk, if_pos] at h
      have hkv : (k, v) = ("Location", loc) := List.head_eq_of_cons_eq h
      have hrest : rest.filter (fun kv => kv.1 == "Location") = [] :=
        List.tail_eq_of_cons_eq h
      have hv : v = loc := congrArg Prod.snd hkv
      rw [redirectLoop]
      simp only [hk, if_true]
      rw [hv, redirectLoop_no_loc net rest _ hrest]
    · simp only [hk, Bool.false_eq_true, not_false_eq_true, if_neg] at h
      rw [redirectLoop]
      simp only [hk, Bool.false_eq_true, if_false]
      exact redirectLoop_single_loc net loc rest acc h

/-- C2 (amended): after any sequence of `start()` and `exit()` calls
in which every `start()`'s launch succeeds and every `start()`'s flags
tokens lack `--data-api`, the stats directory exists iff
`started == true`.  (Without those side conditions the invariant
fails, see the counterexample.) -/
theorem c2_stats_dir_invariant (path : String) (events : List MEvent)
    (hok : ∀ e ∈ events, eventOk e) :
    (runEvents path initState events).statsDirExists =
      (runEvents path initState events).started :=
  runEvents_inv path events initState rfl hok

/-- C2 counterexample: a single `start()` whose detached launch fails
(flags empty) creates the stats directory but leaves `started = false`,
so the claimed iff fails after that sequence. -/
theorem c2_counterexample :
    (runEvents "p" initState [.startEv "" "a" "main" "1" false]).started = false ∧
    (runEvents "p" initState [.startEv "" "a" "main" "1" false]).statsDirExists = true := by
  decide

/-- C2 witness: a successful start, an exit, and another successful
start satisfy the side conditions and the invariant. -/
theorem c2_witness :
    (∀ e ∈ ([.startEv "" "a" "main" "4" true, .exitEv,
              .startEv "--mini" "b" "mini" "2" true] : List MEvent), eventOk e) ∧
    (runEvents "p" initState [.startEv "" "a" "main" "4" true, .exitEv,
        .startEv "--mini" "b" "mini" "2" true]).statsDirExists =
      (runEvents "p" initState [.startEv "" "a" "main" "4" true, .exitEv,
        .startEv "--mini" "b" "mini" "2" true]).started :=
  ⟨by intro e he; fin_cases he <;> simp [eventOk] <;> decide,
   c2_stats_dir_invariant "p" _ (by intro e he; fin_cases he <;> simp [eventOk] <;> decide)⟩

/-- C3 (amended): `exit()` acquires no lock and `start()`'s
stats-directory recreation precedes its locked region, so a start and
an exit CAN interleave.  Starting from the consistent state after a
successful start, the schedule below lets the start thread perform its
directory recreation, then runs `exit()` to completion while the start
thread is still mid-call (its remaining program non-empty), then
finishes the start thread: both complete, and the final state has
`started = true` with no stats directory — the inconsistency the claim
says the lock prevents. -/
theorem c3_interleaving :
    (sysStep ⟨⟨true, true, false⟩, startThread true, exitThread⟩ true).t1 =
      [.lockAcquire, .resetHandle, .launch true, .lockRelease] ∧
    (sysStep ⟨⟨true, true, false⟩, startThread true, exitThread⟩ true).t2 = exitThread ∧
    (sysStep (sysStep ⟨⟨true, true, false⟩, startThread true, exitThread⟩ true) false).t2 = [] ∧
    (sysStep (sysStep ⟨⟨true, true, false⟩, startThread true, exitThread⟩ true) false).t1 ≠ [] ∧
    (runSched (sysStep (sysStep ⟨⟨true, true, false⟩, startThread true, exitThread⟩ true) false)
        [true, true, true, true]).t1 = [] ∧
    (runSched (sysStep (sysStep ⟨⟨true, true, false⟩, startThread true, exitThread⟩ true) false)
        [true, true, true, true]).st.started = true ∧
    (runSched (sysStep (sysStep ⟨⟨true, true, false⟩, startThread true, exitThread⟩ true) false)
        [true, true, true, true]).st.statsDir = false ∧
    (runSched (sysStep (sysStep ⟨⟨true, true, false⟩, startThread true, exitThread⟩ true) false)
        [true, true, true, true]).st.locked = false := by
  decide

/-- C3 counterexample: a completed interleaved run of one `start()`
and one `exit()` from a consistent state (both thread programs fully
consumed) ends with `started = true` and no stats directory, refuting
the claim that the shared lock prevents any interleaving and keeps
`started` consistent with the directory. -/
theorem c3_counterexample :
    (runSched ⟨⟨true, true, false⟩, startThread true, exitThread⟩
        [true, false, true, true, true, true]).t1 = [] ∧
    (runSched ⟨⟨true, true, false⟩, startThread true, exitThread⟩
        [true, false, true, true, true, true]).t2 = [] ∧
    (runSched ⟨⟨true, true, false⟩, startThread true, exitThread⟩
        [true, false, true, true, true, true]).st.started = true ∧
    (runSched ⟨⟨true, true, false⟩, startThread true, exitThread⟩
        [true, false, true, true, true, true]).st.statsDir = false := by
  decide

/-- C4 (amended): provided the caller-supplied `threadCount` is not
the literal token `--wallet`, every containment check behaves as if it
inspected only the literal split tokens of the flags string: the
assembled argument list equals the spec-described assembly.  (With
`threadCount = "--wallet"` they differ, see the counterexample: the
`--wallet` check also sees the appended threads token.) -/
theorem c4_checks_flags_tokens (p flags address chain threads : String)
    (ht : threads ≠ "--wallet") :
    assembleArgs p flags address chain threads =
      assembleArgsSpec p flags address chain threads := by
  by_cases h1 : "--local-api" ∈ tokensOf flags <;>
  by_cases h2 : "--data-api" ∈ tokensOf flags <;>
  by_cases h3 : "--start-mining" ∈ tokensOf flags <;>
  by_cases h4 : "--wallet" ∈ tokensOf flags <;>
  by_cases h5 : chain = "mini" <;>
    simp [assembleArgs, assembleArgsSpec, argsAfterLocal, h1, h2, h3, h4, h5,
      List.mem_append, statsDir_ne_mining p, statsDir_ne_wallet p,
      Ne.symm (statsDir_ne_mining p), Ne.symm (statsDir_ne_wallet p), Ne.symm ht, ht]

/-- C4 counterexample: with `flags = ""` and `threadCount = "--wallet"`
the `--wallet` containment check matches the threads token appended by
`start()` itself, so the wallet flag and address are wrongly
suppressed; the list differs from the one predicted by checks on the
flags tokens alone. -/
theorem c4_counterexample :
    assembleArgs "p" "" "abc" "main" "--wallet" ≠
      assembleArgsSpec "p" "" "abc" "main" "--wallet" ∧
    assembleArgs "p" "" "abc" "main" "--wallet" =
      ["--local-api", "--data-api", "p/stats/", "--start-mining", "--wallet"] ∧
    assembleArgsSpec "p" "" "abc" "main" "--wallet" =
      ["--local-api", "--data-api", "p/stats/", "--start-mining", "--wallet",
       "--wallet", "abc"] := by
  decide

/-- C4 witness: with an ordinary thread count the two assemblies
agree. -/
theorem c4_witness :
    ("4" : String) ≠ "--wallet" ∧
    assembleArgs "p" "--xyz" "abc" "mini" "4" = assembleArgsSpec "p" "--xyz" "abc" "mini" "4" :=
  ⟨by decide, c4_checks_flags_tokens "p" "--xyz" "abc" "mini" "4" (by decide)⟩

/-- C5 (confirmed): `start()` with `flags=""`, `chain="mini"`,
`threadCount="4"`, `walletAddress="abc"` assembles exactly
`--local-api`, `--data-api <statsDir>`, `--start-mining 4`, `--mini`,
`--wallet abc` in that order, and the stats directory exists at the
moment the launch is attempted. -/
theorem c5_default_args (p : String) (ok : Bool) (s : MState) :
    (startStep p "" "abc" "mini" "4" ok s).args =
      ["--local-api", "--data-api", p ++ "/stats/", "--start-mining", "4",
       "--mini", "--wallet", "abc"] ∧
    (startStep p "" "abc" "mini" "4" ok s).pre.statsDirExists = true := by
  constructor
  · rw [startStep_args]
    simp [assembleArgs, argsAfterLocal, tokensOf_empty,
      Ne.symm (statsDir_ne_mining p), Ne.symm (statsDir_ne_wallet p)]
  · rw [startStep_pre_statsDirExists]
    simp [argsAfterLocal, tokensOf_empty]

/-- C6 (amended): on a 302 first response the fetcher issues one GET
per `Location` header field; when the response carries exactly one
`Location` field the fetcher re-targets host, path and query to it and
re-issues exactly one further GET (the request log is precisely the
first GET followed by the redirected one), and if that second GET
fails at the transport level the attempt fails with `ConnectionIssue`. -/
theorem c6_redirect_single_location (url0 : Url) (fileName validHash : String)
    (net : String → String → Option Response) (sha256hex : String → String)
    (installedAfter : Bool) (r1 : Response) (loc : String)
    (h1 : net url0.host url0.path = some r1)
    (h302 : r1.code = 302)
    (hloc : r1.fields.filter (fun kv => kv.1 == "Location") = [("Location", loc)]) :
    (downloadModel url0 fileName validHash net sha256hex installedAfter).requests =
      [(url0.host, url0.path), redirectTarget loc] ∧
    (net (redirectTarget loc).1 (redirectTarget loc).2 = none →
      (downloadModel url0 fileName validHash net sha256hex installedAfter).events =
        [.downloadFailure .ConnectionIssue]) := by
  have hfetch : fetchResult url0 net =
      { response := net (redirectTarget loc).1 (redirectTarget loc).2,
        requests := [(url0.host, url0.path), redirectTarget loc] } := by
    simp only [fetchResult, h1]
    rw [if_pos h302, redirectLoop_single_loc net loc r1.fields _ hloc]
    rfl
  have h404 : r1.code ≠ 404 := by rw [h302]; decide
  constructor
  · simp only [downloadModel, h1]
    rw [if_neg h404]
    simp only [hfetch]
    cases hnet : net (redirectTarget loc).1 (redirectTarget loc).2 with
    | none => rfl
    | some r => by_cases hsha : sha256hex r.body ≠ validHash <;> simp [hsha]
  · intro hnone
    simp only [downloadModel, h1]
    rw [if_neg h404]
    simp only [hfetch, hnone]

/-- C6 counterexample: a 302 first response carrying TWO `Location`
header fields makes the loop of lines 84-93 issue two further GETs
(three requests in total), not exactly one as the claim states for
every 302 attempt. -/
theorem c6_counterexample :
    (downloadModel ⟨"h0", "/p0", ""⟩ "f" "v"
      (fun h p =>
        if h = "h0" ∧ p = "/p0" then
          some ⟨302, [("Location", "https://h1/p1"), ("Location", "https://h2/p2")], "b0"⟩
        else if h = "h1" then some ⟨200, [], "b1"⟩
        else if h = "h2" then some ⟨200, [], "b2"⟩
        else none)
      (fun _ => "v") true).requests =
      [("h0", "/p0"), ("h1", "/p1?"), ("h2", "/p2?")] := by
  decide

/-- C6 witness: a 302 with exactly one `Location` field whose target
GET fails at the transport level: exactly one further GET is issued
and the attempt ends in `ConnectionIssue`. -/
theorem c6_witness :
    ((fun (h : String) (p : String) =>
        if h = "gh" ∧ p = "/rel" then
          some (⟨302, [("Location", "https://cdn/obj?sig=1")], ""⟩ : Response)
        else none) "gh" "/rel" =
      some ⟨302, [("Location", "https://cdn/obj?sig=1")], ""⟩) ∧
    (downloadModel ⟨"gh", "/rel", ""⟩ "f" "v"
      (fun h p =>
        if h = "gh" ∧ p = "/rel" then
          some ⟨302, [("Location", "https://cdn/obj?sig=1")], ""⟩
        else none)
      (fun _ => "v") true).requests = [("gh", "/rel"), ("cdn", "/obj?sig=1")] ∧
    (downloadModel ⟨"gh", "/rel", ""⟩ "f" "v"
      (fun h p =>
        if h = "gh" ∧ p = "/rel" then
          some ⟨302, [("Location", "https://cdn/obj?sig=1")], ""⟩
        else none)
      (fun _ => "v") true).events = [.downloadFailure .ConnectionIssue] :=
  ⟨by decide,
   (c6_redirect_single_location ⟨"gh", "/rel", ""⟩ "f" "v"
      (fun h p =>
        if h = "gh" ∧ p = "/rel" then
          some ⟨302, [("Location", "https://cdn/obj?sig=1")], ""⟩
        else none)
      (fun _ => "v") true ⟨302, [("Location", "https://cdn/obj?sig=1")], ""⟩
      "https://cdn/obj?sig=1" (by decide) (by decide) (by decide)).1,
   (c6_redirect_single_location ⟨"gh", "/rel", ""⟩ "f" "v"
      (fun h p =>
        if h = "gh" ∧ p = "/rel" then
          some ⟨302, [("Location", "https://cdn/obj?sig=1")], ""⟩
        else none)
      (fun _ => "v") true ⟨302, [("Location", "https://cdn/obj?sig=1")], ""⟩
      "https://cdn/obj?sig=1" (by decide) (by decide) (by decide)).2 (by decide)⟩

/-- C7 (confirmed): whenever the transport phase delivers a final
response whose body's digest differs from the expected hash (and the
attempt was not a 404), `download()` emits exactly
`HashVerificationFailed`, writes no archive file, and runs no
extraction. -/
theorem c7_hash_mismatch_no_write (url0 : Url) (fileName validHash : String)
    (net : String → String → Option Response) (sha256hex : String → String)
    (installedAfter : Bool) (r1 r : Response)
    (h1 : net url0.host url0.path = some r1)
    (h404 : r1.code ≠ 404)
    (hresp : (fetchResult url0 net).response = some r)
    (hsha : sha256hex r.body ≠ validHash) :
    (downloadModel url0 fileName validHash net sha256hex installedAfter).events =
      [.downloadFailure .HashVerificationFailed] ∧
    (downloadModel url0 fileName validHash net sha256hex installedAfter).writes = [] ∧
    (downloadModel url0 fileName validHash net sha256hex installedAfter).tarRuns = [] := by
  simp only [downloadModel, h1]
  rw [if_neg h404]
  simp only [hresp, if_pos hsha]
  trivial

/-- C7 witness: a 200 response whose digest does not match yields only
`HashVerificationFailed` and no writes. -/
theorem c7_witness :
    ((fun (h : String) (_ : String) =>
        if h = "h" then some (⟨200, [], "body"⟩ : Response) else none) "h" "/p" =
      some ⟨200, [], "body"⟩) ∧
    ((200 : Nat) ≠ 404) ∧
    ((fun (_ : String) => "x") "body" ≠ "y") ∧
    (downloadModel ⟨"h", "/p", ""⟩ "f" "y"
      (fun h _ => if h = "h" then some ⟨200, [], "body"⟩ else none)
      (fun _ => "x") true).events = [.downloadFailure .HashVerificationFailed] :=
  ⟨by decide, by decide, by decide,
   (c7_hash_mismatch_no_write ⟨"h", "/p", ""⟩ "f" "y"
      (fun h _ => if h = "h" then some ⟨200, [], "body"⟩ else none)
      (fun _ => "x") true ⟨200, [], "body"⟩ ⟨200, [], "body"⟩
      (by decide) (by decide) (by decide) (by decide)).1⟩

/-- C8 (confirmed): whenever the stats file is absent or `started` is
false, `getStatus` emits `(started, 0)`; in particular `started = true`
with no stats file reports `(true, 0)`. -/
theorem c8_missing_file_or_not_started (started : Bool) (statsFile : Option String)
    (h : statsFile = none ∨ started = false) :
    getStatus started statsFile = (started, 0) := by
  rcases h with h | h
  · subst h; rfl
  · subst h; cases statsFile <;> rfl

/-- C8 witness: `started = true` and no stats file reports `(true, 0)`. -/
theorem c8_witness :
    ((none : Option String) = none ∨ true = false) ∧
    getStatus true none = (true, 0) :=
  ⟨Or.inl rfl, c8_missing_file_or_not_started true none (Or.inl rfl)⟩

/-- C9 (confirmed): a `start()` whose detached launch fails leaves
`started = false`, returns false and emits exactly one
`p2poolStartFailure`; a `start()` whose launch succeeds sets
`started = true`, returns true and emits nothing. -/
theorem c9_launch_result (p f a c t : String) (s : MState) :
    ((startStep p f a c t false s).ret = false ∧
     (startStep p f a c t false s).state.started = false ∧
     (startStep p f a c t false s).events = [PEvent.p2poolStartFailure]) ∧
    ((startStep p f a c t true s).ret = true ∧
     (startStep p f a c t true s).state.started = true ∧
     (startStep p f a c t true s).events = []) :=
  ⟨⟨rfl, rfl, rfl⟩, ⟨rfl, rfl, rfl⟩⟩

/-- C10 (confirmed): a `start()` whose flags tokens lack `--data-api`
recreates the stats directory (it exists with a fresh generation) and
replaces the stored process handle before the launch is attempted, and
these side effects persist in the post-state even when the launch
fails and `start()` returns false. -/
theorem c10_failed_start_side_effects (p f a c t : String) (s : MState)
    (h : "--data-api" ∉ tokensOf f) :
    (startStep p f a c t false s).ret = false ∧
    (startStep p f a c t false s).pre.statsDirExists = true ∧
    (startStep p f a c t false s).pre.statsDirGen = s.statsDirGen + 1 ∧
    (startStep p f a c t false s).pre.handle = s.handle + 1 ∧
    (startStep p f a c t false s).state.statsDirExists = true ∧
    (startStep p f a c t false s).state.statsDirGen = s.statsDirGen + 1 ∧
    (startStep p f a c t false s).state.handle = s.handle + 1 ∧
    (startStep p f a c t false s).state.started = false := by
  have h2 : ¬ ("--data-api" ∈ argsAfterLocal f) := by
    rw [mem_argsAfterLocal_dataApi]; exact h
  refine ⟨rfl, ?_, ?_, ?_, ?_, ?_, ?_, rfl⟩ <;>
    simp [startStep_pre_statsDirExists, startStep_pre_statsDirGen, startStep_pre_handle,
      startStep_state_statsDirExists, startStep_state_statsDirGen,
      startStep_state_handle, h2]

/-- C10 witness: a failed launch with empty flags from the initial
state still leaves the freshly recreated stats directory and the new
handle behind. -/
theorem c10_witness :
    ("--data-api" ∉ tokensOf "") ∧
    (startStep "p" "" "a" "main" "4" false initState).ret = false ∧
    (startStep "p" "" "a" "main" "4" false initState).state.statsDirExists = true ∧
    (startStep "p" "" "a" "main" "4" false initState).state.statsDirGen =
      initState.statsDirGen + 1 ∧
    (startStep "p" "" "a" "main" "4" false initState).state.handle = initState.handle + 1 :=
  ⟨by decide,
   (c10_failed_start_side_effects "p" "" "a" "main" "4" initState (by decide)).1,
   (c10_failed_start_side_effects "p" "" "a" "main" "4" initState (by decide)).2.2.2.2.1,
   (c10_failed_start_side_effects "p" "" "a" "main" "4" initState (by decide)).2.2.2.2.2.1,
   (c10_failed_start_side_effects "p" "" "a" "main" "4" initState (by decide)).2.2.2.2.2.2.1⟩
